import Mathlib

/-!
Verification of the Crawl Orchestration & Real-Time Status Synchronization
subsystem, observer side, against its natural-language specification.

The definitions below are a shallow embedding of the client-side
`ObserverSession`, implemented in `frontend/src/hooks/useWebSocket.js`.
Each definition carries a comment pointing at the source lines it embeds.

Modelling conventions:
* JavaScript numbers holding timestamps (`Date.now()`) and millisecond delays
  are embedded as `Nat`.  The one subtraction `Date.now() - disconnectedSince`
  is compared only against positive thresholds, so truncated `Nat` subtraction
  is observationally equal to the JS computation.
* `undefined` / absent JSON fields are embedded as `none : Option _`.
  JavaScript truthiness tests (`x || y`) on strings treat the empty string as
  falsy, and on numbers treat `0` as falsy; the helpers `jsOrStr` / `jsOrNat`
  reproduce this.
* A message whose `JSON.parse` throws is embedded as `none : Option WsData`
  (the `catch` block in `handleMessage` swallows the exception).
* `setTimeout` / `setInterval` are embedded as bookkeeping on the session
  state: `pendingTimers` is the list of identifiers of scheduled, not yet
  fired and not yet cancelled reconnect timeouts, `reconnectTimeout` is the
  content of `reconnectTimeoutRef` (which may go stale: the code never nulls
  it when a timer fires), and `countdownLive` says whether a countdown
  interval is running.
* Each `WebSocket` object created by `connect()` is a `(id, state)` pair in
  the `sockets` list.  Per the WebSocket API, calling `close()` moves the
  socket to a closing state and its `onclose` handler still fires later; the
  environment delivers `open` / `error` / `close` / `message` events to any
  socket that can still produce them.
-/

/-- Connection status of the observer, the `wsStatus` React state
(`useWebSocket.js` line 11 and the `setWsStatus` call sites). -/
inductive WsStatus where
  | disconnected
  | connecting
  | connected
  | error
deriving Repr, DecidableEq

/-- The `reconnectInfo` React state (`useWebSocket.js` lines 12-16). -/
structure ReconnectInfo where
  attemptCount : Nat
  nextAttempt : Option Nat
  countdown : Option Nat
deriving Repr, DecidableEq

/-- The client-side crawl status object (`useWebSocket.js` lines 33-44). -/
structure CrawlStatus where
  inProgress : Bool
  currentClub : Option String
  currentDay : Option String
  progress : Nat
  clubsList : List String
  message : Option String
  totalClubs : Nat
  currentClubIndex : Option Nat
  lastCompleted : Option String
  processedClubs : Nat
deriving Repr, DecidableEq

/-- One entry of the `clubStatuses` map (`useWebSocket.js` lines 208-215). -/
structure ClubEntry where
  status : Option String
  message : Option String
  timestamp : Option String
deriving Repr, DecidableEq

/-- The `data` payload of an incoming WebSocket message.  Every field the
handler reads from `data.data` appears here; `none` stands for a field the
sender omitted (JS `undefined`). -/
structure MsgPayload where
  in_progress : Option Bool
  current_club : Option String
  current_day : Option String
  message : Option String
  progress : Option Nat
  total_clubs : Option Nat
  current_club_index : Option Nat
  name : Option String
  status : Option String
deriving Repr, DecidableEq

/-- A payload with every field absent. -/
def emptyPayload : MsgPayload :=
  ⟨none, none, none, none, none, none, none, none, none⟩

/-- A successfully parsed WebSocket message, as consumed by `handleMessage`
(`useWebSocket.js` lines 151-273): a stringly-typed `type` tag, the nested
`data` object, the top-level `message` (read by the `crawl_error` branch) and
the top-level `timestamp` (read by the `club_status` branch). -/
structure WsData where
  type : String
  data : MsgPayload
  message : Option String
  timestamp : Option String
deriving Repr, DecidableEq

/-- Default crawl status used when nothing (valid) is in `sessionStorage`
(`useWebSocket.js` lines 33-44). -/
def defaultCrawlStatus : CrawlStatus :=
  { inProgress := false
    currentClub := none
    currentDay := none
    progress := 0
    clubsList := []
    message := none
    totalClubs := 0
    currentClubIndex := none
    lastCompleted := none
    processedClubs := 0 }

/-- The `useState` initializer for `crawlStatus` (`useWebSocket.js` lines
17-45).  The argument describes what `sessionStorage` holds: `none` when no
`crawlStatus` item is stored, `some none` when the stored string fails to
parse (the `catch` path), and `some (some parsed)` when it parses to a
status object.  A parsed snapshot is returned only when its `inProgress`
flag is falsy; otherwise the default status is used. -/
def initCrawlStatus (saved : Option (Option CrawlStatus)) : CrawlStatus :=
  match saved with
  | some (some parsed) => if parsed.inProgress then defaultCrawlStatus else parsed
  | some none => defaultCrawlStatus
  | none => defaultCrawlStatus

/-- `clearCompletedStatus` (`useWebSocket.js` lines 69-84): once a crawl is
complete (not in progress and `lastCompleted` set), blank out the completion
marker, message and current position, leaving every other field alone. -/
def clearCompletedStatus (prev : CrawlStatus) : CrawlStatus :=
  if ¬ prev.inProgress ∧ prev.lastCompleted.isSome then
    { prev with lastCompleted := none, message := none,
                currentClub := none, currentDay := none }
  else prev

/-- Delay, in milliseconds, after which the effect at `useWebSocket.js`
lines 87-92 runs `clearCompletedStatus` (the literal `10000` on line 89). -/
def clearCompletedDelayMs : Nat := 10000

/-- `INITIAL_RECONNECT_DELAY` (`useWebSocket.js` line 95). -/
def INITIAL_RECONNECT_DELAY : Nat := 5000

/-- `MEDIUM_RECONNECT_DELAY` (`useWebSocket.js` line 96). -/
def MEDIUM_RECONNECT_DELAY : Nat := 60000

/-- `LONG_RECONNECT_DELAY` (`useWebSocket.js` line 97). -/
def LONG_RECONNECT_DELAY : Nat := 300000

/-- `MEDIUM_THRESHOLD`, five minutes in milliseconds (`useWebSocket.js`
line 98). -/
def MEDIUM_THRESHOLD : Nat := 5 * 60 * 1000

/-- `LONG_THRESHOLD`, ten minutes in milliseconds (`useWebSocket.js`
line 99). -/
def LONG_THRESHOLD : Nat := 10 * 60 * 1000

/-- `getReconnectDelay` (`useWebSocket.js` lines 102-114).  `now` stands for
the `Date.now()` call on line 105.  The `attemptCount` parameter is declared
by the source function but never read by its body. -/
def getReconnectDelay (attemptCount : Nat) (disconnectedSince : Option Nat)
    (now : Nat) : Nat :=
  match disconnectedSince with
  | none => INITIAL_RECONNECT_DELAY
  | some since =>
    let disconnectedTime := now - since
    if disconnectedTime > LONG_THRESHOLD then
      LONG_RECONNECT_DELAY
    else if disconnectedTime > MEDIUM_THRESHOLD then
      MEDIUM_RECONNECT_DELAY
    else
      INITIAL_RECONNECT_DELAY

/-- JavaScript `a || b` for an optional string `a`: the empty string is
falsy, so it falls through to `b`, as does an absent field. -/
def jsOrStr (v : Option String) (prev : Option String) : Option String :=
  match v with
  | some s => if s = "" then prev else some s
  | none => prev

/-- JavaScript `a || b` for an optional number `a`: `0` is falsy, so it
falls through to `b`, as does an absent field. -/
def jsOrNat (v : Option Nat) (prev : Nat) : Nat :=
  match v with
  | some n => if n = 0 then prev else n
  | none => prev

/-- The `crawler_status` update (`useWebSocket.js` lines 179-204): merge the
incoming payload into the previous status, and when the flag flips from
in-progress to not-in-progress, stamp `lastCompleted` with the current time
(`nowIso` models `new Date().toISOString()`) and record `processedClubs`. -/
def applyCrawlerStatus (nowIso : String) (prev : CrawlStatus)
    (d : MsgPayload) : CrawlStatus :=
  let ns : CrawlStatus :=
    { prev with
      inProgress := d.in_progress.getD false
      currentClub := jsOrStr d.current_club prev.currentClub
      currentDay := jsOrStr d.current_day prev.currentDay
      message := jsOrStr d.message prev.message
      progress := d.progress.getD prev.progress
      totalClubs := jsOrNat d.total_clubs prev.totalClubs
      currentClubIndex :=
        match d.current_club_index with
        | some v => some v
        | none => prev.currentClubIndex }
  if prev.inProgress ∧ ¬ ns.inProgress then
    { ns with
      lastCompleted := some nowIso
      processedClubs := jsOrNat (some ns.totalClubs) prev.processedClubs }
  else ns

/-- Lifecycle of one `WebSocket` object: `connecting` after construction,
`opened` after the open event, `closing` after `close()` was called on it
(its close event is still to come). -/
inductive SockState where
  | connecting
  | opened
  | closing
deriving Repr, DecidableEq

/-- Outputs of the message handler: frames sent on the socket (`ws.send`)
and invocations of the `onStatusChange` callback, identified by their tag. -/
inductive Output where
  | send (action : String)
  | statusChange (tag : String)
deriving Repr, DecidableEq

/-- The complete observer-session state: the React state (`wsStatus`,
`reconnectInfo`, `crawlStatus`, `clubStatuses`), the refs (`wsRef`,
`reconnectTimeoutRef`, `countdownIntervalRef` as a live flag,
`shouldReconnectRef`, `disconnectedSinceRef`), the live sockets, the live
reconnect timers and two id counters for freshness. -/
structure Session where
  wsStatus : WsStatus
  reconnectInfo : ReconnectInfo
  crawlStatus : CrawlStatus
  clubStatuses : List (String × ClubEntry)
  sockets : List (Nat × SockState)
  wsRef : Option Nat
  reconnectTimeout : Option Nat
  pendingTimers : List Nat
  countdownLive : Bool
  shouldReconnect : Bool
  disconnectedSince : Option Nat
  nextSockId : Nat
  nextTimerId : Nat
deriving Repr, DecidableEq

/-- State of the socket with identifier `i`, if it is still live. -/
def sockSt (socks : List (Nat × SockState)) (i : Nat) : Option SockState :=
  match socks.find? (fun p => p.1 == i) with
  | some p => some p.2
  | none => none

/-- Mark socket `i` as opened. -/
def setOpened (socks : List (Nat × SockState)) (i : Nat) :
    List (Nat × SockState) :=
  socks.map (fun p => if p.1 == i then (p.1, SockState.opened) else p)

/-- Effect of calling `close()` on socket `i`: it stops being open or
connecting, but stays live until its close event is delivered. -/
def markClosing (socks : List (Nat × SockState)) (i : Nat) :
    List (Nat × SockState) :=
  socks.map (fun p => if p.1 == i then (p.1, SockState.closing) else p)

/-- Remove socket `i` (its close event has been delivered). -/
def removeSock (socks : List (Nat × SockState)) (i : Nat) :
    List (Nat × SockState) :=
  socks.filter (fun p => p.1 != i)

/-- Insert-or-update into the `clubStatuses` object, with JavaScript object
spread semantics: an existing key keeps its position and gets the new value,
a new key is appended (`useWebSocket.js` lines 208-215). -/
def upsert (l : List (String × ClubEntry)) (k : String) (v : ClubEntry) :
    List (String × ClubEntry) :=
  match l with
  | [] => [(k, v)]
  | (k0, v0) :: rest =>
    if k0 = k then (k0, v) :: rest else (k0, v0) :: upsert rest k v

/-- The message-type strings recognized by the `if`/`else if` chain of
`handleMessage` (`useWebSocket.js` lines 157-269). -/
def recognizedTypes : List String :=
  ["connection_established", "crawler_status", "club_status", "data_info",
   "crawl_status", "crawl_started", "crawl_stopped", "crawl_complete",
   "crawl_error", "error"]

/-- `handleMessage` (`useWebSocket.js` lines 151-273).  `m = none` embeds a
frame whose `JSON.parse` throws: the `catch` block swallows the exception
and nothing happens.  `nowIso` models `new Date().toISOString()`.  Returns
the updated session together with the frames sent and callbacks invoked. -/
def applyMsg (s : Session) (m : Option WsData) (nowIso : String) :
    Session × List Output :=
  match m with
  | none => (s, [])
  | some d =>
    if d.type = "connection_established" then
      -- lines 157-175: mark connected, reset reconnect bookkeeping, notify,
      -- and auto-request the crawl status when the current socket is open.
      let sendOut : List Output :=
        match s.wsRef with
        | some j =>
          if sockSt s.sockets j = some SockState.opened then
            [Output.send "get_crawl_status"]
          else []
        | none => []
      ({ s with wsStatus := WsStatus.connected
                reconnectInfo := ⟨0, none, none⟩ },
       Output.statusChange "connected" :: sendOut)
    else if d.type = "crawler_status" then
      -- lines 177-205
      let prev := s.crawlStatus
      let ns := applyCrawlerStatus nowIso prev d.data
      ({ s with crawlStatus := ns },
       if prev.inProgress ∧ ¬ ns.inProgress then
         [Output.statusChange "crawl_complete"]
       else [])
    else if d.type = "club_status" then
      -- lines 206-216; a missing name indexes the object at key "undefined"
      let entry : ClubEntry := ⟨d.data.status, d.data.message, d.timestamp⟩
      ({ s with clubStatuses :=
          upsert s.clubStatuses (d.data.name.getD "undefined") entry }, [])
    else if d.type = "data_info" ∨ d.type = "crawl_status" then
      -- lines 217-223
      (s, [Output.statusChange "data_info"])
    else if d.type = "crawl_started" then
      -- lines 224-233
      ({ s with crawlStatus :=
          { s.crawlStatus with
            inProgress := true
            message := some "מתחיל איסוף נתונים..."
            progress := 0
            lastCompleted := none } }, [])
    else if d.type = "crawl_stopped" ∨ d.type = "crawl_complete" then
      -- lines 234-247
      ({ s with crawlStatus :=
          { s.crawlStatus with
            inProgress := false
            message := some (if d.type = "crawl_stopped" then
                "איסוף נתונים הופסק." else "איסוף נתונים הסתיים בהצלחה!")
            lastCompleted := some nowIso } },
       [Output.statusChange (if d.type = "crawl_stopped" then
          "crawl_stopped" else "crawl_complete")])
    else if d.type = "crawl_error" then
      -- lines 248-261
      ({ s with crawlStatus :=
          { s.crawlStatus with
            inProgress := false
            message := some ("שגיאה: " ++
              d.message.getD "אירעה שגיאה באיסוף נתונים")
            lastCompleted := some nowIso } },
       [Output.statusChange "crawl_error"])
    else if d.type = "error" then
      -- lines 262-269
      (s, [Output.statusChange "error"])
    else
      (s, [])

/-- `connect` (`useWebSocket.js` lines 276-353), up to the handlers it
installs (those are the socket events below).  A no-op when the referenced
socket is already open or connecting (lines 278-282).  `ok = false` embeds a
throwing `new WebSocket(url)` constructor: the `catch` on lines 349-352
leaves the status at `error` and no socket is created. -/
def connectFn (ok : Bool) (s : Session) : Session :=
  let live : Bool :=
    match s.wsRef with
    | some i =>
      match sockSt s.sockets i with
      | some SockState.connecting => true
      | some SockState.opened => true
      | _ => false
    | none => false
  if live then s
  else
    let s1 := { s with wsStatus := WsStatus.connecting }
    if ok then
      { s1 with
        sockets := s1.sockets ++ [(s1.nextSockId, SockState.connecting)]
        wsRef := some s1.nextSockId
        nextSockId := s1.nextSockId + 1 }
    else
      { s1 with wsStatus := WsStatus.error }

/-- The `ws.onopen` handler (`useWebSocket.js` lines 293-297), guarded by
the environment: only a connecting socket can fire its open event. -/
def stepOpen (i : Nat) (s : Session) : Session :=
  if sockSt s.sockets i = some SockState.connecting then
    { s with
      sockets := setOpened s.sockets i
      disconnectedSince := none
      wsStatus := WsStatus.connected }
  else s

/-- The `ws.onerror` handler (`useWebSocket.js` lines 301-309): it only
flips the visible status to `error` (and notifies the callback, an output
this step relation does not record). -/
def stepError (i : Nat) (s : Session) : Session :=
  if (sockSt s.sockets i).isSome then
    { s with wsStatus := WsStatus.error }
  else s

/-- The `ws.onclose` handler (`useWebSocket.js` lines 311-348): drop the
socket, null the shared `wsRef`, mark disconnected, stamp
`disconnectedSince` if unset, and — when auto-reconnect is on — bump the
attempt count, pick the adaptive delay, publish the countdown and schedule a
fresh reconnect timeout (line 344 overwrites `reconnectTimeoutRef` without
clearing it first). -/
def stepClose (i : Nat) (now : Nat) (s : Session) : Session :=
  if (sockSt s.sockets i).isSome then
    let s1 := { s with
      sockets := removeSock s.sockets i
      wsRef := none
      wsStatus := WsStatus.disconnected
      disconnectedSince := some (s.disconnectedSince.getD now) }
    if s1.shouldReconnect then
      let attempt := s1.reconnectInfo.attemptCount + 1
      let delay := getReconnectDelay attempt s1.disconnectedSince now
      { s1 with
        reconnectInfo := ⟨attempt, some (now + delay), some ((delay + 999) / 1000)⟩
        countdownLive := true
        pendingTimers := s1.pendingTimers ++ [s1.nextTimerId]
        reconnectTimeout := some s1.nextTimerId
        nextTimerId := s1.nextTimerId + 1 }
    else s1
  else s

/-- Delivery of a frame on socket `i` (`ws.onmessage`, line 299): only an
open socket delivers messages; the handler is `applyMsg`. -/
def stepMsg (i : Nat) (m : Option WsData) (nowIso : String) (s : Session) :
    Session :=
  if sockSt s.sockets i = some SockState.opened then (applyMsg s m nowIso).1
  else s

/-- `clearTimeout(reconnectTimeoutRef.current)` followed by
`reconnectTimeoutRef.current = null` (`useWebSocket.js` lines 370-373): the
referenced timer stops being pending; a stale reference (to a timer that
already fired) is a harmless no-op. -/
def cancelTracked (s : Session) : Session :=
  match s.reconnectTimeout with
  | some id =>
    { s with pendingTimers := s.pendingTimers.erase id, reconnectTimeout := none }
  | none => s

/-- The scheduled reconnect timeout with identifier `id` fires (the callback
on lines 344-346 of `useWebSocket.js`): it stops being pending — the code
does not null the stale `reconnectTimeoutRef` — and `connect()` runs. -/
def stepFire (id : Nat) (ok : Bool) (s : Session) : Session :=
  if id ∈ s.pendingTimers then
    connectFn ok { s with pendingTimers := s.pendingTimers.erase id }
  else s

/-- The user-initiated `reconnect` (`useWebSocket.js` lines 368-396): cancel
the tracked reconnect timeout, stop the countdown interval, reset the
reconnect info, call `close()` on the current socket and null `wsRef`, then
`connect()` immediately. -/
def stepManual (ok : Bool) (s : Session) : Session :=
  let s1 := cancelTracked s
  let s2 := { s1 with countdownLive := false,
                      reconnectInfo := ⟨0, none, none⟩ }
  let s3 :=
    match s2.wsRef with
    | some i => { s2 with sockets := markClosing s2.sockets i, wsRef := none }
    | none => s2
  connectFn ok s3

/-- The unmount cleanup (`useWebSocket.js` lines 406-423): disable
auto-reconnect, clear the timers (without nulling the refs) and `close()`
the socket. -/
def stepUnmount (s : Session) : Session :=
  let s1 := { s with shouldReconnect := false }
  let s2 :=
    match s1.reconnectTimeout with
    | some id => { s1 with pendingTimers := s1.pendingTimers.erase id }
    | none => s1
  let s3 := { s2 with countdownLive := false }
  match s3.wsRef with
  | some i => { s3 with sockets := markClosing s3.sockets i }
  | none => s3

/-- Events of one observer session: the mount-time `connect()` call, the
four socket events, a reconnect timeout firing, the manual reconnect, and
unmount. -/
inductive Ev where
  | connectCall (ok : Bool)
  | sockOpen (i : Nat)
  | sockError (i : Nat)
  | sockClose (i : Nat) (now : Nat)
  | msgEv (i : Nat) (m : Option WsData) (nowIso : String)
  | timerFire (id : Nat) (ok : Bool)
  | manualReconnect (ok : Bool)
  | unmount
deriving Repr, DecidableEq

/-- One step of the observer session. -/
def step (e : Ev) (s : Session) : Session :=
  match e with
  | Ev.connectCall ok => connectFn ok s
  | Ev.sockOpen i => stepOpen i s
  | Ev.sockError i => stepError i s
  | Ev.sockClose i now => stepClose i now s
  | Ev.msgEv i m nowIso => stepMsg i m nowIso s
  | Ev.timerFire id ok => stepFire id ok s
  | Ev.manualReconnect ok => stepManual ok s
  | Ev.unmount => stepUnmount s

/-- Run a list of events. -/
def runEvents (s : Session) (es : List Ev) : Session :=
  es.foldl (fun s e => step e s) s

/-- Session state right after the hook mounts (`useWebSocket.js` lines
11-66): disconnected, zeroed reconnect info, crawl status rehydrated from
`sessionStorage` (see `initCrawlStatus`), no sockets, no timers,
auto-reconnect enabled. -/
def initialSession (saved : Option (Option CrawlStatus)) : Session :=
  { wsStatus := WsStatus.disconnected
    reconnectInfo := ⟨0, none, none⟩
    crawlStatus := initCrawlStatus saved
    clubStatuses := []
    sockets := []
    wsRef := none
    reconnectTimeout := none
    pendingTimers := []
    countdownLive := false
    shouldReconnect := true
    disconnectedSince := none
    nextSockId := 0
    nextTimerId := 0 }

/-! ## Sample values used by witnesses -/

/-- A terminal (not in progress) snapshot as it may sit in `sessionStorage`. -/
def savedTerminalSnapshot : CrawlStatus :=
  { defaultCrawlStatus with
    progress := 100
    totalClubs := 7
    processedClubs := 7
    lastCompleted := some "2026-01-02T03:04:05Z" }

/-- A running snapshot as it may sit in `sessionStorage`. -/
def savedRunningSnapshot : CrawlStatus :=
  { defaultCrawlStatus with inProgress := true, progress := 40 }

/-- A completed status, input for the completion-clearing timer. -/
def completedSample : CrawlStatus :=
  { defaultCrawlStatus with
    progress := 77
    totalClubs := 9
    processedClubs := 9
    message := some "done"
    currentClub := some "Tel Aviv"
    currentDay := some "Sunday"
    lastCompleted := some "2026-01-02T03:04:05Z" }

/-- A message with an unrecognized `type` tag. -/
def bogusMsg : WsData := ⟨"bogus_kind", emptyPayload, none, none⟩

/-- The server's `connection_established` greeting. -/
def connEstMsg : WsData := ⟨"connection_established", emptyPayload, none, none⟩

/-- A session whose single socket has successfully opened. -/
def openSession : Session := stepOpen 0 (connectFn true (initialSession none))

/-! ## Claim C1 -/

/-- Claim C1 counterexample: with a disconnection of exactly 5 minutes —
which lies between 5 and 10 minutes, where the claim promises the medium
delay of 60 seconds — `getReconnectDelay` returns the short delay of
5 seconds, because the source compares with strict `>` against
`MEDIUM_THRESHOLD`. -/
theorem reconnectDelay_at_exactly_five_minutes :
    getReconnectDelay 1 (some 0) MEDIUM_THRESHOLD = INITIAL_RECONNECT_DELAY ∧
    INITIAL_RECONNECT_DELAY ≠ MEDIUM_RECONNECT_DELAY := by
  decide

/-- Claim C1 (amended): the reconnect delay is determined by the elapsed
disconnection time: at most 5 minutes yields the short delay of 5 seconds,
strictly more than 5 and at most 10 minutes yields the medium delay of 60
seconds, and over 10 minutes yields the long delay of 300 seconds; in
particular 2 minutes yields the short, 7 minutes the medium and 12 minutes
the long delay. -/
theorem reconnectDelay_threshold_selection :
    ∀ a since now : Nat,
      (now - since ≤ MEDIUM_THRESHOLD →
        getReconnectDelay a (some since) now = INITIAL_RECONNECT_DELAY) ∧
      (MEDIUM_THRESHOLD < now - since → now - since ≤ LONG_THRESHOLD →
        getReconnectDelay a (some since) now = MEDIUM_RECONNECT_DELAY) ∧
      (LONG_THRESHOLD < now - since →
        getReconnectDelay a (some since) now = LONG_RECONNECT_DELAY) ∧
      getReconnectDelay a (some 0) (2 * 60 * 1000) = INITIAL_RECONNECT_DELAY ∧
      getReconnectDelay a (some 0) (7 * 60 * 1000) = MEDIUM_RECONNECT_DELAY ∧
      getReconnectDelay a (some 0) (12 * 60 * 1000) = LONG_RECONNECT_DELAY := by
  intro a since now
  refine ⟨?_, ?_, ?_, rfl, rfl, rfl⟩
  · intro h1
    simp only [getReconnectDelay, MEDIUM_THRESHOLD, LONG_THRESHOLD,
      INITIAL_RECONNECT_DELAY, MEDIUM_RECONNECT_DELAY,
      LONG_RECONNECT_DELAY] at h1 ⊢
    split_ifs <;> omega
  · intro h1 h2
    simp only [getReconnectDelay, MEDIUM_THRESHOLD, LONG_THRESHOLD,
      INITIAL_RECONNECT_DELAY, MEDIUM_RECONNECT_DELAY,
      LONG_RECONNECT_DELAY] at h1 h2 ⊢
    split_ifs <;> omega
  · intro h1
    simp only [getReconnectDelay, MEDIUM_THRESHOLD, LONG_THRESHOLD,
      INITIAL_RECONNECT_DELAY, MEDIUM_RECONNECT_DELAY,
      LONG_RECONNECT_DELAY] at h1 ⊢
    split_ifs <;> omega

/-- Witness for the amended C1 theorem at the three literal scenarios of the
specification: 2, 7 and 12 minutes of disconnection. -/
theorem reconnectDelay_threshold_selection_witness :
    getReconnectDelay 3 (some 0) 120000 = INITIAL_RECONNECT_DELAY ∧
    getReconnectDelay 3 (some 0) 420000 = MEDIUM_RECONNECT_DELAY ∧
    getReconnectDelay 3 (some 0) 720000 = LONG_RECONNECT_DELAY :=
  ⟨(reconnectDelay_threshold_selection 3 0 120000).1 (by decide),
   (reconnectDelay_threshold_selection 3 0 420000).2.1 (by decide) (by decide),
   (reconnectDelay_threshold_selection 3 0 720000).2.2.1 (by decide)⟩

/-! ## Claim C2 -/

/-- Claim C2: the initial local crawl state never reports a job in
progress: a persisted snapshot is restored only when it is terminal (not in
progress); a snapshot that is still running, or a store content that fails
to parse, or an empty store, all yield the default idle state, whose
`inProgress` is false, progress 0 and current target empty. -/
theorem rehydration_never_in_progress :
    ∀ (saved : Option (Option CrawlStatus)) (parsed : CrawlStatus),
      (initCrawlStatus saved).inProgress = false ∧
      (parsed.inProgress = false → initCrawlStatus (some (some parsed)) = parsed) ∧
      (parsed.inProgress = true →
        initCrawlStatus (some (some parsed)) = defaultCrawlStatus) ∧
      initCrawlStatus (some none) = defaultCrawlStatus ∧
      initCrawlStatus none = defaultCrawlStatus ∧
      defaultCrawlStatus.inProgress = false ∧
      defaultCrawlStatus.progress = 0 ∧
      defaultCrawlStatus.currentClub = none ∧
      defaultCrawlStatus.currentDay = none := by
  intro saved parsed
  refine ⟨?_, ?_, ?_, rfl, rfl, rfl, rfl, rfl, rfl⟩
  · match saved with
    | none => rfl
    | some none => rfl
    | some (some p) =>
      by_cases hp : p.inProgress <;> simp [initCrawlStatus, hp, defaultCrawlStatus]
  · intro hp; simp [initCrawlStatus, hp]
  · intro hp; simp [initCrawlStatus, hp]

/-- Witness for C2: a concrete terminal snapshot is restored verbatim, a
concrete running snapshot is replaced by the default idle state, and both
initializations report no job in progress. -/
theorem rehydration_never_in_progress_witness :
    savedTerminalSnapshot.inProgress = false ∧
    initCrawlStatus (some (some savedTerminalSnapshot)) = savedTerminalSnapshot ∧
    savedRunningSnapshot.inProgress = true ∧
    initCrawlStatus (some (some savedRunningSnapshot)) = defaultCrawlStatus ∧
    (initCrawlStatus (some (some savedRunningSnapshot))).inProgress = false :=
  ⟨rfl,
   (rehydration_never_in_progress (some (some savedTerminalSnapshot))
      savedTerminalSnapshot).2.1 rfl,
   rfl,
   (rehydration_never_in_progress (some (some savedRunningSnapshot))
      savedRunningSnapshot).2.2.1 rfl,
   (rehydration_never_in_progress (some (some savedRunningSnapshot))
      savedRunningSnapshot).1⟩

/-! ## Claim C7 -/

/-- Claim C7: the reconnect delay depends only on how long the observer has
been disconnected, not on the attempt count: for any two attempt counts,
the same `disconnectedSince` and the same current time, the computed delay
is equal. -/
theorem reconnectDelay_ignores_attemptCount :
    ∀ (a1 a2 : Nat) (ds : Option Nat) (now : Nat),
      getReconnectDelay a1 ds now = getReconnectDelay a2 ds now := by
  intro a1 a2 ds now
  rfl

/-! ## Claim C10 -/

/-- Claim C10: ten seconds (`clearCompletedDelayMs = 10000`) after the
crawl state becomes terminal (`inProgress` false with `lastCompleted` set),
the clearing step blanks exactly `lastCompleted`, `message`, `currentClub`
and `currentDay`, leaving `progress`, `totalClubs`, `processedClubs`,
`currentClubIndex`, `clubsList` and `inProgress` unchanged. -/
theorem clearCompleted_frame (st : CrawlStatus)
    (h1 : st.inProgress = false) (h2 : st.lastCompleted.isSome = true) :
    clearCompletedDelayMs = 10000 ∧
    (clearCompletedStatus st).lastCompleted = none ∧
    (clearCompletedStatus st).message = none ∧
    (clearCompletedStatus st).currentClub = none ∧
    (clearCompletedStatus st).currentDay = none ∧
    (clearCompletedStatus st).progress = st.progress ∧
    (clearCompletedStatus st).totalClubs = st.totalClubs ∧
    (clearCompletedStatus st).processedClubs = st.processedClubs ∧
    (clearCompletedStatus st).currentClubIndex = st.currentClubIndex ∧
    (clearCompletedStatus st).clubsList = st.clubsList ∧
    (clearCompletedStatus st).inProgress = st.inProgress := by
  refine ⟨rfl, ?_⟩
  simp [clearCompletedStatus, h1, h2]

/-- Witness for C10 on a concrete completed status. -/
theorem clearCompleted_frame_witness :
    completedSample.inProgress = false ∧
    completedSample.lastCompleted.isSome = true ∧
    (clearCompletedStatus completedSample).lastCompleted = none ∧
    (clearCompletedStatus completedSample).message = none ∧
    (clearCompletedStatus completedSample).progress = completedSample.progress ∧
    (clearCompletedStatus completedSample).totalClubs = completedSample.totalClubs :=
  ⟨rfl, rfl,
   (clearCompleted_frame completedSample rfl rfl).2.1,
   (clearCompleted_frame completedSample rfl rfl).2.2.1,
   (clearCompleted_frame completedSample rfl rfl).2.2.2.2.2.1,
   (clearCompleted_frame completedSample rfl rfl).2.2.2.2.2.2.1⟩

/-! ## Claim C9 -/

/-- Claim C9: a message whose JSON fails to parse, or whose `type` is not
one of the ten recognized kinds, leaves the whole session state — crawl
status, per-club statuses, connection status and reconnect info — unchanged
and produces no output; no exception reaches the caller (the handler is a
total function). -/
theorem unrecognized_message_is_noop :
    ∀ (s : Session) (nowIso : String),
      applyMsg s none nowIso = (s, []) ∧
      ∀ d : WsData, d.type ∉ recognizedTypes →
        applyMsg s (some d) nowIso = (s, []) := by
  intro s nowIso
  refine ⟨rfl, ?_⟩
  intro d hd
  simp only [recognizedTypes, List.mem_cons, List.not_mem_nil, or_false,
    not_or] at hd
  obtain ⟨h1, h2, h3, h4, h5, h6, h7, h8, h9, h10⟩ := hd
  simp [applyMsg, h1, h2, h3, h4, h5, h6, h7, h8, h9, h10]

/-- Witness for C9: a concrete message of unknown kind and an unparseable
frame both leave a concrete session exactly as it was. -/
theorem unrecognized_message_is_noop_witness :
    "bogus_kind" ∉ recognizedTypes ∧
    applyMsg openSession (some bogusMsg) "2026-01-01T00:00:00Z" =
      (openSession, []) ∧
    applyMsg openSession none "2026-01-01T00:00:00Z" = (openSession, []) :=
  ⟨by decide,
   (unrecognized_message_is_noop openSession "2026-01-01T00:00:00Z").2
     bogusMsg (by decide),
   (unrecognized_message_is_noop openSession "2026-01-01T00:00:00Z").1⟩

/-! ## Claim C4 -/

/-- Claim C4: when the connection is successfully established — the server
greets the session with `connection_established` on the open socket the
session references — the handler marks the session connected, resets the
reconnect bookkeeping, and sends a `get_crawl_status` request over that
connection, so the view is refreshed rather than left to cached or
rehydrated local state. -/
theorem connection_established_requests_snapshot :
    ∀ (s : Session) (d : WsData) (nowIso : String) (j : Nat),
      s.wsRef = some j →
      sockSt s.sockets j = some SockState.opened →
      d.type = "connection_established" →
      Output.send "get_crawl_status" ∈ (applyMsg s (some d) nowIso).2 ∧
      (applyMsg s (some d) nowIso).1.reconnectInfo = ⟨0, none, none⟩ ∧
      (applyMsg s (some d) nowIso).1.wsStatus = WsStatus.connected := by
  intro s d nowIso j h1 h2 h3
  simp [applyMsg, h1, h2, h3]

/-- Witness for C4: on a session whose socket 0 is open, the
`connection_established` greeting triggers the `get_crawl_status` request
and resets the attempt bookkeeping. -/
theorem connection_established_requests_snapshot_witness :
    openSession.wsRef = some 0 ∧
    sockSt openSession.sockets 0 = some SockState.opened ∧
    Output.send "get_crawl_status" ∈
      (applyMsg openSession (some connEstMsg) "t0").2 ∧
    (applyMsg openSession (some connEstMsg) "t0").1.reconnectInfo =
      ⟨0, none, none⟩ :=
  ⟨rfl, rfl,
   (connection_established_requests_snapshot openSession connEstMsg "t0" 0
      rfl rfl rfl).1,
   (connection_established_requests_snapshot openSession connEstMsg "t0" 0
      rfl rfl rfl).2.1⟩

/-! ## Claim C5 -/

/-- The progress value a message writes into the local state: only a
`crawler_status` message with a defined `progress` field does (the
`!== undefined` check on `useWebSocket.js` line 186). -/
def msgProgress (m : Option WsData) : Option Nat :=
  match m with
  | some d => if d.type = "crawler_status" then d.data.progress else none
  | none => none

/-- Whether a (parsed) message is the `crawl_started` job boundary, the one
message kind that resets `progress` to 0. -/
def isStartMsg (m : Option WsData) : Bool :=
  match m with
  | some d => d.type = "crawl_started"
  | none => false

/-- The trajectory of the stored `crawlStatus.progress` value while a list
of timestamped messages is folded into the session by the handler. -/
def progressTrace : Session → List (Option WsData × String) → List Nat
  | s, [] => [s.crawlStatus.progress]
  | s, (m, t) :: rest =>
    s.crawlStatus.progress :: progressTrace (applyMsg s m t).1 rest

/-- Modelled from the spec: the backend `CrawlJobController` and
`StatusBroadcaster` (the server that emits the status events) are not part
of `src/`; per §4.2 step 5 of the specification the controller recomputes
`progressPercent = floor(processedCount / totalTargets * 100)` after each
target, `processedCount` never decreases within one job, and a job emits no
second start event.  `JobEmission n counts msgs` says: `msgs` is a sequence
of events emitted by one job with `n` targets after its start — no
`crawl_started` occurs, and the progress percentages carried by its
`crawler_status` events are the floors for the non-decreasing processed
counts `counts`. -/
def JobEmission (n : Nat) (counts : List Nat)
    (msgs : List (Option WsData × String)) : Prop :=
  List.Chain' (· ≤ ·) counts ∧
  (∀ p ∈ msgs, isStartMsg p.1 = false) ∧
  msgs.filterMap (fun p => msgProgress p.1) =
    counts.map (fun k => k * 100 / n)

lemma applyCrawlerStatus_progress (t : String) (prev : CrawlStatus)
    (d : MsgPayload) :
    (applyCrawlerStatus t prev d).progress = d.progress.getD prev.progress := by
  simp only [applyCrawlerStatus]
  split <;> rfl

lemma applyMsg_progress_of_not_start (s : Session) (m : Option WsData)
    (t : String) (hm : isStartMsg m = false) :
    ((applyMsg s m t).1).crawlStatus.progress =
      (msgProgress m).getD s.crawlStatus.progress := by
  match m with
  | none => rfl
  | some d =>
    simp only [isStartMsg, decide_eq_false_iff_not] at hm
    simp only [applyMsg, msgProgress]
    split_ifs with h1 h2 h3 h4 h5 h6 h7 h8 <;>
      simp_all [applyCrawlerStatus_progress]

lemma progressTrace_head (s : Session) (msgs : List (Option WsData × String)) :
    (progressTrace s msgs).head? = some s.crawlStatus.progress := by
  match msgs with
  | [] => rfl
  | (m, t) :: rest => rfl

lemma progressTrace_chain (s : Session) (msgs : List (Option WsData × String))
    (hstart : ∀ p ∈ msgs, isStartMsg p.1 = false)
    (hchain : List.Chain' (· ≤ ·)
      (s.crawlStatus.progress :: msgs.filterMap (fun p => msgProgress p.1))) :
    List.Chain' (· ≤ ·) (progressTrace s msgs) := by
  induction msgs generalizing s with
  | nil => simp [progressTrace]
  | cons p rest ih =>
    obtain ⟨m, t⟩ := p
    have hm : isStartMsg m = false := hstart (m, t) (by simp)
    have hrest : ∀ q ∈ rest, isStartMsg q.1 = false :=
      fun q hq => hstart q (by simp [hq])
    have hprog := applyMsg_progress_of_not_start s m t hm
    show List.Chain' (· ≤ ·)
      (s.crawlStatus.progress :: progressTrace (applyMsg s m t).1 rest)
    rw [List.chain'_cons']
    cases hv : msgProgress m with
    | none =>
      have hfm : ((m, t) :: rest).filterMap (fun p => msgProgress p.1) =
          rest.filterMap (fun p => msgProgress p.1) := by
        simp [List.filterMap_cons, hv]
      rw [hfm] at hchain
      have hp1 : (applyMsg s m t).1.crawlStatus.progress =
          s.crawlStatus.progress := by rw [hprog, hv]; rfl
      refine ⟨?_, ih _ hrest (by rw [hp1]; exact hchain)⟩
      intro y hy
      rw [progressTrace_head, hp1] at hy
      simp at hy
      omega
    | some v =>
      have hfm : ((m, t) :: rest).filterMap (fun p => msgProgress p.1) =
          v :: rest.filterMap (fun p => msgProgress p.1) := by
        simp [List.filterMap_cons, hv]
      rw [hfm] at hchain
      rw [List.chain'_cons] at hchain
      have hp1 : (applyMsg s m t).1.crawlStatus.progress = v := by
        rw [hprog, hv]; rfl
      refine ⟨?_, ih _ hrest (by rw [hp1]; exact hchain.2)⟩
      intro y hy
      rw [progressTrace_head, hp1] at hy
      simp at hy
      omega

lemma applyMsg_start_progress (s : Session) (d : WsData) (t : String)
    (hd : d.type = "crawl_started") :
    ((applyMsg s (some d) t).1).crawlStatus.progress = 0 := by
  simp [applyMsg, hd]

/-- Claim C5: within a single crawl job, the stored progress is
monotonically non-decreasing: starting from any session state, folding the
job's start event followed by any sequence of status events emitted by that
job (per the spec-modelled backend emission `JobEmission`) never decreases
the stored progress value. -/
theorem progress_monotone_within_job :
    ∀ (s0 : Session) (start : WsData) (t0 : String) (n : Nat)
      (counts : List Nat) (msgs : List (Option WsData × String)),
      start.type = "crawl_started" →
      JobEmission n counts msgs →
      List.Chain' (· ≤ ·)
        (progressTrace (applyMsg s0 (some start) t0).1 msgs) := by
  intro s0 start t0 n counts msgs hstart hemit
  obtain ⟨hc, hnostart, hprog⟩ := hemit
  apply progressTrace_chain _ _ hnostart
  rw [applyMsg_start_progress s0 start t0 hstart, hprog]
  rw [List.chain'_cons']
  constructor
  · intro y _; exact Nat.zero_le y
  · rw [List.chain'_map]
    exact hc.imp fun a b h =>
      Nat.div_le_div_right (Nat.mul_le_mul_right 100 h)

/-- The job-start message used by the C5 witness. -/
def startMsg : WsData := ⟨"crawl_started", emptyPayload, none, none⟩

/-- A `crawler_status` event carrying progress `p`, used by the C5 witness. -/
def statusMsg (p : Nat) : WsData :=
  ⟨"crawler_status",
   { emptyPayload with in_progress := some true, progress := some p },
   none, none⟩

/-- A two-target job's emission after its start: progress 50 then 100. -/
def sampleJobMsgs : List (Option WsData × String) :=
  [(some (statusMsg 50), "t1"), (some (statusMsg 100), "t2")]

/-- Witness for C5: the concrete two-target job emission (processed counts
1 then 2, hence progress 50 then 100) folded into a fresh session yields a
non-decreasing stored-progress trajectory. -/
theorem progress_monotone_within_job_witness :
    JobEmission 2 [1, 2] sampleJobMsgs ∧
    List.Chain' (· ≤ ·)
      (progressTrace (applyMsg (initialSession none) (some startMsg) "t0").1
        sampleJobMsgs) :=
  ⟨by unfold JobEmission
      exact ⟨by norm_num [List.chain'_cons], by decide, by decide⟩,
   progress_monotone_within_job (initialSession none) startMsg "t0" 2 [1, 2]
     sampleJobMsgs rfl
     (by unfold JobEmission
         exact ⟨by norm_num [List.chain'_cons], by decide, by decide⟩)⟩

/-! ## Claim C6 -/

lemma connectFn_disconnectedSince (ok : Bool) (s : Session) :
    (connectFn ok s).disconnectedSince = s.disconnectedSince := by
  simp only [connectFn]
  split_ifs <;> rfl

lemma applyMsg_disconnectedSince (s : Session) (m : Option WsData)
    (t : String) : ((applyMsg s m t).1).disconnectedSince =
      s.disconnectedSince := by
  match m with
  | none => rfl
  | some d =>
    simp only [applyMsg]
    split_ifs <;> rfl

lemma stepMsg_disconnectedSince (i : Nat) (m : Option WsData) (t : String)
    (s : Session) : (stepMsg i m t s).disconnectedSince =
      s.disconnectedSince := by
  simp only [stepMsg]
  split_ifs <;> simp [applyMsg_disconnectedSince]

lemma stepManual_disconnectedSince (ok : Bool) (s : Session) :
    (stepManual ok s).disconnectedSince = s.disconnectedSince := by
  simp only [stepManual, cancelTracked]
  cases s.reconnectTimeout <;> cases hw : s.wsRef <;>
    simp [connectFn_disconnectedSince, hw]

lemma stepFire_disconnectedSince (id : Nat) (ok : Bool) (s : Session) :
    (stepFire id ok s).disconnectedSince = s.disconnectedSince := by
  simp only [stepFire]
  split_ifs <;> simp [connectFn_disconnectedSince]

lemma stepUnmount_disconnectedSince (s : Session) :
    (stepUnmount s).disconnectedSince = s.disconnectedSince := by
  simp only [stepUnmount]
  cases s.reconnectTimeout <;> cases hw : s.wsRef <;> simp [hw]

lemma stepError_disconnectedSince (i : Nat) (s : Session) :
    (stepError i s).disconnectedSince = s.disconnectedSince := by
  simp only [stepError]
  split_ifs <;> rfl

lemma stepClose_disconnectedSince (i now : Nat) (s : Session) :
    (stepClose i now s).disconnectedSince =
      if (sockSt s.sockets i).isSome then some (s.disconnectedSince.getD now)
      else s.disconnectedSince := by
  simp only [stepClose]
  split_ifs <;> rfl

/-- Claim C6 counterexample: after two failed reconnect attempts the
attempt count is 2; a successful open clears `disconnectedSince` but — the
open handler at `useWebSocket.js` lines 293-297 never touches
`reconnectInfo` — the attempt count stays 2 rather than being reset to 0. -/
theorem open_does_not_reset_attemptCount :
    (stepOpen 2 (runEvents (initialSession none)
      [Ev.connectCall true, Ev.sockClose 0 10, Ev.timerFire 0 true,
       Ev.sockClose 1 20, Ev.timerFire 1 true])).disconnectedSince = none ∧
    (stepOpen 2 (runEvents (initialSession none)
      [Ev.connectCall true, Ev.sockClose 0 10, Ev.timerFire 0 true,
       Ev.sockClose 1 20, Ev.timerFire 1 true])).reconnectInfo.attemptCount
      = 2 ∧
    (2 : Nat) ≠ 0 := by
  refine ⟨rfl, rfl, by decide⟩

/-- Claim C6 (amended): `disconnectedSince` is set when the connection is
first lost, preserved unchanged by further close events (hence across
failed reconnect attempts), and cleared only by a successful open; the
attempt count, however, is reset to 0 not at the open event itself but when
the `connection_established` greeting is received on the open socket. -/
theorem disconnectedSince_lifecycle :
    (∀ (s : Session) (i now t : Nat), s.disconnectedSince = some t →
      (stepClose i now s).disconnectedSince = some t) ∧
    (∀ (s : Session) (i now : Nat), s.disconnectedSince = none →
      (sockSt s.sockets i).isSome = true →
      (stepClose i now s).disconnectedSince = some now) ∧
    (∀ (s : Session) (i : Nat), sockSt s.sockets i = some SockState.connecting →
      (stepOpen i s).disconnectedSince = none) ∧
    (∀ (s : Session) (e : Ev), (step e s).disconnectedSince = none →
      s.disconnectedSince = none ∨ ∃ i, e = Ev.sockOpen i) ∧
    (∀ (s : Session) (i : Nat) (d : WsData) (nowIso : String),
      sockSt s.sockets i = some SockState.opened →
      d.type = "connection_established" →
      (stepMsg i (some d) nowIso s).reconnectInfo.attemptCount = 0) := by
  refine ⟨?_, ?_, ?_, ?_, ?_⟩
  · intro s i now t h
    rw [stepClose_disconnectedSince]
    split_ifs <;> simp [h]
  · intro s i now h1 h2
    rw [stepClose_disconnectedSince, if_pos h2, h1]
    rfl
  · intro s i h
    simp [stepOpen, h]
  · intro s e h
    cases e with
    | connectCall ok => rw [show step (Ev.connectCall ok) s = connectFn ok s from rfl,
        connectFn_disconnectedSince] at h; exact Or.inl h
    | sockOpen i => exact Or.inr ⟨i, rfl⟩
    | sockError i => rw [show step (Ev.sockError i) s = stepError i s from rfl,
        stepError_disconnectedSince] at h; exact Or.inl h
    | sockClose i now =>
      rw [show step (Ev.sockClose i now) s = stepClose i now s from rfl,
        stepClose_disconnectedSince] at h
      split_ifs at h
      exact Or.inl h
    | msgEv i m t => rw [show step (Ev.msgEv i m t) s = stepMsg i m t s from rfl,
        stepMsg_disconnectedSince] at h; exact Or.inl h
    | timerFire id ok => rw [show step (Ev.timerFire id ok) s = stepFire id ok s from rfl,
        stepFire_disconnectedSince] at h; exact Or.inl h
    | manualReconnect ok => rw [show step (Ev.manualReconnect ok) s = stepManual ok s from rfl,
        stepManual_disconnectedSince] at h; exact Or.inl h
    | unmount => rw [show step Ev.unmount s = stepUnmount s from rfl,
        stepUnmount_disconnectedSince] at h; exact Or.inl h
  · intro s i d nowIso h1 h2
    simp [stepMsg, h1, applyMsg, h2]

/-- Witness for the amended C6 theorem: a concrete session that lost its
connection at time 5 keeps that timestamp across a further close event, a
concrete fresh disconnect stamps the close time, a concrete open clears the
timestamp, and the `connection_established` greeting zeroes the attempt
count. -/
theorem disconnectedSince_lifecycle_witness :
    (stepClose 0 99 { openSession with disconnectedSince := some 5 }).disconnectedSince = some 5 ∧
    (stepClose 0 99 openSession).disconnectedSince = some 99 ∧
    (stepOpen 0 (connectFn true (initialSession none))).disconnectedSince = none ∧
    (stepMsg 0 (some connEstMsg) "t0"
      { openSession with reconnectInfo := ⟨4, none, none⟩ }).reconnectInfo.attemptCount = 0 :=
  ⟨disconnectedSince_lifecycle.1 { openSession with disconnectedSince := some 5 } 0 99 5 rfl,
   disconnectedSince_lifecycle.2.1 openSession 0 99 rfl rfl,
   disconnectedSince_lifecycle.2.2.1 (connectFn true (initialSession none)) 0 rfl,
   disconnectedSince_lifecycle.2.2.2.2
     { openSession with reconnectInfo := ⟨4, none, none⟩ } 0 connEstMsg "t0" rfl rfl⟩

/-! ## Claim C8 -/

/-- Claim C8: a transport fault is never fatal while auto-reconnect is
enabled: every close event of a live socket schedules a reconnect timer,
with the next attempt computed by the adaptive backoff policy; and the
error event is treated identically to a plain disconnect — an error
followed by the close leads to exactly the same session state as the close
alone. -/
theorem transport_fault_reconnection :
    ∀ (s : Session) (i now : Nat),
      (sockSt s.sockets i).isSome = true → s.shouldReconnect = true →
      ((stepClose i now s).reconnectTimeout = some s.nextTimerId ∧
       (stepClose i now s).pendingTimers = s.pendingTimers ++ [s.nextTimerId] ∧
       (stepClose i now s).reconnectInfo.attemptCount =
         s.reconnectInfo.attemptCount + 1 ∧
       (stepClose i now s).reconnectInfo.nextAttempt =
         some (now + getReconnectDelay (s.reconnectInfo.attemptCount + 1)
           (some (s.disconnectedSince.getD now)) now)) ∧
      stepClose i now (stepError i s) = stepClose i now s := by
  intro s i now h1 h2
  constructor
  · simp [stepClose, h1, h2]
  · simp only [stepError, h1, if_pos]
    simp [stepClose, h1, h2]

/-- Witness for C8: on a session with one open socket, the close event at
time 7 schedules the fresh timer, and error-then-close equals close. -/
theorem transport_fault_reconnection_witness :
    (sockSt openSession.sockets 0).isSome = true ∧
    openSession.shouldReconnect = true ∧
    (stepClose 0 7 openSession).reconnectTimeout =
      some openSession.nextTimerId ∧
    (stepClose 0 7 openSession).pendingTimers =
      openSession.pendingTimers ++ [openSession.nextTimerId] ∧
    stepClose 0 7 (stepError 0 openSession) = stepClose 0 7 openSession :=
  ⟨rfl, rfl,
   (transport_fault_reconnection openSession 0 7 rfl rfl).1.1,
   (transport_fault_reconnection openSession 0 7 rfl rfl).1.2.1,
   (transport_fault_reconnection openSession 0 7 rfl rfl).2⟩

/-! ## Claim C3 -/

/-- Claim C3 counterexample: pending reconnection timers can stack.  From a
fresh session that is connecting (socket 0), a manual reconnect replaces
socket 0 with socket 1; the close event of the discarded socket 0 then
schedules timer 0 (the handler at `useWebSocket.js` lines 311-348 runs for
deliberately closed sockets too), and the close event of socket 1 schedules
timer 1 while timer 0 is still pending: two reconnection timers are pending
at once. -/
theorem manual_reconnect_timer_stacking :
    (runEvents (initialSession none)
      [Ev.connectCall true, Ev.manualReconnect true,
       Ev.sockClose 0 1000, Ev.sockClose 1 1500]).pendingTimers.length = 2 ∧
    ¬ (runEvents (initialSession none)
      [Ev.connectCall true, Ev.manualReconnect true,
       Ev.sockClose 0 1000, Ev.sockClose 1 1500]).pendingTimers.length ≤ 1 := by
  exact ⟨rfl, by decide⟩

lemma markClosing_fst_lt (l : List (Nat × SockState)) (i n : Nat)
    (h : ∀ p ∈ l, p.1 < n) : ∀ p ∈ markClosing l i, p.1 < n := by
  intro p hp
  simp only [markClosing, List.mem_map] at hp
  obtain ⟨q, hq, rfl⟩ := hp
  by_cases hqi : (q.1 == i) = true <;> simp [hqi] <;> exact h q hq

lemma sockSt_append_fresh (l : List (Nat × SockState)) (n : Nat)
    (st : SockState) (h : ∀ p ∈ l, p.1 < n) :
    sockSt (l ++ [(n, st)]) n = some st := by
  induction l with
  | nil => simp [sockSt]
  | cons q rest ih =>
    have hq : (q.1 == n) = false := by
      have hlt := h q (List.mem_cons_self q rest)
      simp only [beq_eq_false_iff_ne]
      omega
    have hrest := ih fun p hp => h p (List.mem_cons_of_mem q hp)
    simp only [sockSt, List.cons_append, List.find?] at hrest ⊢
    rw [hq]
    exact hrest

/-- Claim C3 (amended): a manual reconnect request always cancels the
reconnection timer currently tracked by the session and its countdown
interval before attempting a new connection at once — the tracked timer
slot is cleared, exactly the tracked timer stops being pending and no timer
is added, the reconnect info is reset, and a fresh connection attempt
starts immediately.  (At most one timer is guaranteed only for the tracked
slot: close events of sockets discarded by a manual reconnect can leave an
additional pending timer, see the counterexample.) -/
theorem manual_reconnect_cancels_tracked :
    ∀ (s : Session) (ok : Bool),
      (∀ p ∈ s.sockets, p.1 < s.nextSockId) →
      (stepManual ok s).reconnectTimeout = none ∧
      (stepManual ok s).countdownLive = false ∧
      (stepManual ok s).pendingTimers = (cancelTracked s).pendingTimers ∧
      (stepManual ok s).reconnectInfo = ⟨0, none, none⟩ ∧
      (ok = true →
        (stepManual ok s).wsRef = some s.nextSockId ∧
        sockSt (stepManual ok s).sockets s.nextSockId =
          some SockState.connecting ∧
        (stepManual ok s).wsStatus = WsStatus.connecting) := by
  intro s ok hfresh
  cases hrt : s.reconnectTimeout <;> cases hw : s.wsRef <;> cases ok <;>
    simp only [stepManual, cancelTracked, hrt, hw, connectFn] <;>
    refine ⟨rfl, rfl, rfl, rfl, ?_⟩ <;>
    intro hok <;>
    first
      | exact absurd hok (by decide)
      | exact ⟨rfl, by
          first
            | exact sockSt_append_fresh s.sockets s.nextSockId
                SockState.connecting hfresh
            | exact sockSt_append_fresh _ s.nextSockId SockState.connecting
                (markClosing_fst_lt s.sockets _ s.nextSockId hfresh),
          rfl⟩

/-- Witness for the amended C3 theorem: on a concrete session with a
pending tracked timer (timer 0, scheduled after a disconnect), the manual
reconnect clears the tracked slot, stops the countdown, leaves no timer
pending, resets the reconnect info and opens a fresh connection attempt. -/
theorem manual_reconnect_cancels_tracked_witness :
    (stepManual true (runEvents (initialSession none)
      [Ev.connectCall true, Ev.sockClose 0 10])).reconnectTimeout = none ∧
    (stepManual true (runEvents (initialSession none)
      [Ev.connectCall true, Ev.sockClose 0 10])).countdownLive = false ∧
    (stepManual true (runEvents (initialSession none)
      [Ev.connectCall true, Ev.sockClose 0 10])).pendingTimers =
      (cancelTracked (runEvents (initialSession none)
        [Ev.connectCall true, Ev.sockClose 0 10])).pendingTimers ∧
    (stepManual true (runEvents (initialSession none)
      [Ev.connectCall true, Ev.sockClose 0 10])).wsRef =
      some (runEvents (initialSession none)
        [Ev.connectCall true, Ev.sockClose 0 10]).nextSockId :=
  ⟨(manual_reconnect_cancels_tracked _ true (by decide)).1,
   (manual_reconnect_cancels_tracked _ true (by decide)).2.1,
   (manual_reconnect_cancels_tracked _ true (by decide)).2.2.1,
   ((manual_reconnect_cancels_tracked (runEvents (initialSession none)
      [Ev.connectCall true, Ev.sockClose 0 10]) true (by decide)).2.2.2.2
      rfl).1⟩
